import Mathlib

/-!
Verification of the content-integrity authentication protocol of the
secure REST API (src/server.js) and of the ledger arithmetic
(src/account.js).

The protocol core is embedded shallowly: `generateToken`, `verifyToken`
and `verifyContentSignature` are translated from src/server.js; the
external signing library (`jwt.sign` / `jwt.verify`, shared-secret HMAC)
and the serialization builtin (`JSON.stringify` / `JSON.parse`) are not
part of the repository, so they are modelled from the spec's Signer and
Canonicalizer contracts: a signature is a symbolic pair of the signed
message and the key, deterministic and verifying exactly when message and
key match; canonicalization is the deterministic, non-normalizing
serialization of a flat string-field object, with a matching decoder
standing in for `JSON.parse` on the canonical grammar.
-/

deriving instance DecidableEq for Except

namespace SecureApi

/-- Byte strings are modelled as lists of characters. -/
abbrev Bytes := List Char

/-- A request payload: a flat JSON object, i.e. an ordered list of
string-valued fields.  Field order is the serialization order the caller
submitted; it is significant (the canonicalizer does not normalize it). -/
structure Payload where
  fields : List (String × String)
deriving DecidableEq

/-- Well-formedness of a payload for the quoting-free canonical grammar:
no field name or value contains a double-quote character (real
`JSON.stringify` escapes these; the model restricts to the unescaped
fragment instead). -/
def Wf (p : Payload) : Prop :=
  ∀ kv ∈ p.fields, ('"' : Char) ∉ kv.1.data ∧ ('"' : Char) ∉ kv.2.data

instance (p : Payload) : Decidable (Wf p) := by
  unfold Wf
  infer_instance

/-- Modelled from the spec: the Canonicalizer body for the field list —
serializes `[(k1,v1),...]` to `"k1":"v1",...` followed by the closing
brace, exactly in the submitted order, with no whitespace and no
reordering (the `JSON.stringify` behavior of src/server.js lines 84 and
157). -/
def encFields : List (String × String) → Bytes
  | [] => ['}']
  | kv :: t =>
    '"' :: (kv.1.data ++ ('"' :: ':' :: '"' :: (kv.2.data ++ ('"' ::
      (match t with
       | [] => ['}']
       | _ :: _ => ',' :: encFields t)))))

/-- Modelled from the spec: `canonicalize(payload)` — the full canonical
byte string `\x7b"k1":"v1",...\x7d` (`JSON.stringify(content)`). -/
def canonicalize (p : Payload) : Bytes :=
  '{' :: encFields p.fields

/-- Splits a byte string at its first double quote: returns the bytes
before the quote and the bytes after it. -/
def spanQuote : Bytes → Option (Bytes × Bytes)
  | [] => none
  | c :: cs =>
    if c = '"' then some ([], cs)
    else
      match spanQuote cs with
      | some (a, r) => some (c :: a, r)
      | none => none

/-- Fuel-indexed field-list decoder for the canonical grammar (at least
one field; fuel bounds the number of fields). -/
def decFieldsAux : Nat → Bytes → Option (List (String × String))
  | 0, _ => none
  | fuel + 1, l =>
    match l with
    | '"' :: rest =>
      match spanQuote rest with
      | some (k, ':' :: '"' :: rest2) =>
        match spanQuote rest2 with
        | some (v, ['}']) => some [(⟨k⟩, ⟨v⟩)]
        | some (v, ',' :: rest4) =>
          match decFieldsAux fuel rest4 with
          | some t => some ((⟨k⟩, ⟨v⟩) :: t)
          | none => none
        | _ => none
      | _ => none
    | _ => none

/-- Modelled from the spec: `JSON.parse` restricted to the canonical
grammar emitted by `canonicalize` — decodes a canonical byte string back
into a payload, failing (like a thrown parse error) on anything else. -/
def decodeCanonical : Bytes → Option Payload
  | '{' :: rest =>
    if rest = ['}'] then some ⟨[]⟩
    else (decFieldsAux rest.length rest).map (fun l => ⟨l⟩)
  | _ => none

theorem spanQuote_append (a r : Bytes) (h : ('"' : Char) ∉ a) :
    spanQuote (a ++ '"' :: r) = some (a, r) := by
  induction a with
  | nil => simp [spanQuote]
  | cons c cs ih =>
    have hc : ¬ c = '"' := fun hc => h (hc ▸ List.mem_cons_self c cs)
    have hcs : ('"' : Char) ∉ cs := fun hm => h (List.mem_cons_of_mem c hm)
    simp [spanQuote, hc, ih hcs]

theorem length_le_encFields (l : List (String × String)) :
    l.length ≤ (encFields l).length := by
  induction l with
  | nil => simp [encFields]
  | cons kv t ih =>
    cases t with
    | nil => simp [encFields]
    | cons kv' t' =>
      simp only [encFields, List.length_cons, List.length_append] at ih ⊢
      omega

theorem decFieldsAux_enc (l : List (String × String)) (fuel : Nat)
    (hne : l ≠ [])
    (hwf : ∀ kv ∈ l, ('"' : Char) ∉ kv.1.data ∧ ('"' : Char) ∉ kv.2.data)
    (hfuel : l.length ≤ fuel) :
    decFieldsAux fuel (encFields l) = some l := by
  induction l generalizing fuel with
  | nil => exact absurd rfl hne
  | cons kv t ih =>
    obtain ⟨f, rfl⟩ : ∃ f, fuel = f + 1 :=
      ⟨fuel - 1, by simp at hfuel; omega⟩
    have hk := (hwf kv (List.mem_cons_self _ _)).1
    have hv := (hwf kv (List.mem_cons_self _ _)).2
    cases t with
    | nil =>
      simp only [encFields, decFieldsAux]
      rw [spanQuote_append _ _ hk]
      simp only []
      rw [spanQuote_append _ _ hv]
      rfl
    | cons kv' t' =>
      have hterm := ih f (by simp)
        (fun x hx => hwf x (List.mem_cons_of_mem kv hx))
        (by simp at hfuel ⊢; omega)
      simp only [encFields] at hterm
      simp only [encFields, decFieldsAux]
      rw [spanQuote_append _ _ hk]
      simp only []
      rw [spanQuote_append _ _ hv]
      simp only []
      rw [hterm]

theorem decode_canonicalize (p : Payload) (h : Wf p) :
    decodeCanonical (canonicalize p) = some p := by
  obtain ⟨fields⟩ := p
  cases fields with
  | nil => rfl
  | cons kv t =>
    have hdec := decFieldsAux_enc (kv :: t) (encFields (kv :: t)).length
      (by simp) h (length_le_encFields _)
    have hnb : encFields (kv :: t) ≠ ['}'] := by
      cases t <;> simp [encFields]
    simp only [canonicalize, decodeCanonical]
    rw [if_neg hnb, hdec]
    rfl

theorem canonicalize_inj {p q : Payload} (hp : Wf p) (hq : Wf q)
    (h : canonicalize p = canonicalize q) : p = q := by
  have h1 := decode_canonicalize p hp
  have h2 := decode_canonicalize q hq
  rw [h, h2] at h1
  exact (Option.some.inj h1).symm

/-- The two static shared-secret keys of src/server.js lines 28-29:
`JWT_SECRET` for the outer bearer token and `CONTENT_SIGNATURE_SECRET`
for the inner content envelope. -/
inductive Key
  | authSecret
  | contentSecret
deriving DecidableEq

/-- Modelled from the spec: a detached signature over a byte string
(the inner `jwt.sign` under the content key).  Symbolic shared-secret
MAC: the signature is determined by the signed bytes and the key, and
verifies exactly when both match. -/
structure InnerSig where
  signedBytes : Bytes
  key : Key
deriving DecidableEq

/-- Modelled from the spec: `sign(bytes, key)` for the inner content
envelope (`jwt.sign(\x7b content: contentString \x7d, CONTENT_SIGNATURE_SECRET)`
at src/server.js line 85). -/
def signInner (b : Bytes) (k : Key) : InnerSig :=
  ⟨b, k⟩

/-- The inner signed token embedded in a bound token's claims: carries
its payload (the canonical content string) together with its signature,
as a JWT does. -/
structure ContentEnvelope where
  content : Bytes
  sig : InnerSig
deriving DecidableEq

/-- The decoded claims of an outer token (the JWT payload built at
src/server.js lines 74-88).  `contentSignature` and `signedContent` are
optional: present exactly on tokens issued via sign-content. -/
structure AuthPayload where
  userId : Nat
  username : String
  email : String
  iat : Nat
  exp : Nat
  contentSignature : Option ContentEnvelope
  signedContent : Option Bytes
deriving DecidableEq

/-- Modelled from the spec: a detached signature over an outer token's
claims (`jwt.sign(payload, JWT_SECRET)` at src/server.js line 90).
Symbolic MAC over the structured claims, standing for the HMAC over
their injective serialization. -/
structure OuterSig where
  signedClaims : AuthPayload
  key : Key
deriving DecidableEq

/-- Modelled from the spec: `sign(bytes, key)` for the outer token. -/
def signOuter (p : AuthPayload) (k : Key) : OuterSig :=
  ⟨p, k⟩

/-- An outer token as transmitted: claims plus outer signature. -/
structure OuterToken where
  claims : AuthPayload
  sig : OuterSig
deriving DecidableEq

/-- A registered user record (src/server.js lines 45-53). -/
structure User where
  id : Nat
  username : String
  email : String
  password : String
deriving DecidableEq

/-- The fixed token TTL: 24 hours in seconds (src/server.js line 79). -/
def ttl : Nat := 60 * 60 * 24

/-- `generateToken(user, content)` of src/server.js lines 73-91: builds
the claims with `iat = now` and `exp = now + 24h`; when content is
provided, canonicalizes it, signs the canonical string under the content
key and embeds both the envelope and the plain canonical string; finally
signs the whole claims under the auth key. -/
def generateToken (user : User) (content : Option Payload) (now : Nat) :
    OuterToken :=
  let base : AuthPayload :=
    { userId := user.id
      username := user.username
      email := user.email
      iat := now
      exp := now + ttl
      contentSignature := none
      signedContent := none }
  let payload : AuthPayload :=
    match content with
    | none => base
    | some c =>
      let contentString := canonicalize c
      { base with
        contentSignature :=
          some ⟨contentString, signInner contentString Key.contentSecret⟩
        signedContent := some contentString }
  { claims := payload, sig := signOuter payload Key.authSecret }

/-- The error taxonomy of the spec (§7), as surfaced by the code's
error responses: outer-token failures from `verifyToken`, content
failures from `verifyContentSignature`, and the handler-level failures
of the post endpoints.  `payloadMismatch` carries both the submitted
body and the originally signed payload (src/server.js lines 164-167). -/
inductive ApiError
  | missingToken
  | signatureError
  | expiredToken
  | missingSignature
  | invalidSignature
  | payloadMismatch (submitted : Payload) (signed : Payload)
  | missingFields
  | notFound
  | forbidden
deriving DecidableEq

/-- `verifyToken` of src/server.js lines 103-126: rejects a missing
bearer credential, then runs `jwt.verify(token, JWT_SECRET)`, which
checks the outer signature first and the expiry second (spec §4.4 steps
(c) then (d)), rejecting when the current time has reached `exp`. -/
def verifyToken (tok : Option OuterToken) (now : Nat) :
    Except ApiError AuthPayload :=
  match tok with
  | none => .error .missingToken
  | some t =>
    if t.sig = signOuter t.claims Key.authSecret then
      if now ≥ t.claims.exp then .error .expiredToken
      else .ok t.claims
    else .error .signatureError

/-- `verifyContentSignature` of src/server.js lines 141-179: requires
both `contentSignature` and `signedContent` on the claims, verifies the
inner envelope under the content key (`jwt.verify`, line 153), parses
the signed content out of the envelope (line 154; a parse failure is
caught like a verify failure, lines 173-178), re-serializes both the
request body and the parsed content (lines 157-158) and compares them
byte-exactly, reporting both payloads on mismatch. -/
def verifyContentSignature (claims : AuthPayload) (body : Payload) :
    Except ApiError Unit :=
  match claims.contentSignature, claims.signedContent with
  | some env, some _ =>
    if env.sig = signInner env.content Key.contentSecret then
      match decodeCanonical env.content with
      | none => .error .invalidSignature
      | some signedContent =>
        if canonicalize body = canonicalize signedContent then .ok ()
        else .error (.payloadMismatch body signedContent)
    else .error .invalidSignature
  | _, _ => .error .missingSignature

/-- The middleware chain guarding every mutating endpoint
(`verifyToken` then `verifyContentSignature`, src/server.js lines 422
and 467): the first failure is terminal, and on success the request
proceeds with the decoded claims. -/
def mutatingGate (tok : Option OuterToken) (body : Payload) (now : Nat) :
    Except ApiError AuthPayload :=
  match verifyToken tok now with
  | .error e => .error e
  | .ok claims =>
    match verifyContentSignature claims body with
    | .error e => .error e
    | .ok _ => .ok claims

/-- A stored post (src/server.js lines 55-58; `createdAt` timestamps are
not modelled). -/
structure Post where
  id : Nat
  title : String
  content : String
  authorId : Nat
deriving DecidableEq

/-- The mutable store the post endpoints act on (src/server.js lines
55-61). -/
structure ServerState where
  posts : List Post
  nextPostId : Nat
deriving DecidableEq

/-- Field access on a request body (`req.body.title` etc.): the first
field with the given name, if any. -/
def lookupField (p : Payload) (k : String) : Option String :=
  (p.fields.find? (fun kv => kv.1 == k)).map (fun kv => kv.2)

/-- The `POST /api/posts` endpoint (src/server.js lines 422-459): runs
the two verification middlewares, then the handler, which requires
non-empty `title` and `content` fields and appends a new post. -/
def createPost (st : ServerState) (tok : Option OuterToken)
    (body : Payload) (now : Nat) : ServerState × Except ApiError Post :=
  match mutatingGate tok body now with
  | .error e => (st, .error e)
  | .ok claims =>
    match lookupField body "title", lookupField body "content" with
    | some title, some content =>
      if title = "" ∨ content = "" then (st, .error .missingFields)
      else
        let post : Post := ⟨st.nextPostId, title, content, claims.userId⟩
        ({ posts := st.posts ++ [post], nextPostId := st.nextPostId + 1 },
          .ok post)
    | _, _ => (st, .error .missingFields)

/-- The `DELETE /api/posts/:id` endpoint (src/server.js lines 527-561):
only `verifyToken` guards it — no content-signature middleware.  The
handler looks the post up, checks ownership and splices it out. -/
def deletePost (st : ServerState) (tok : Option OuterToken)
    (postId : Nat) (now : Nat) : ServerState × Except ApiError Post :=
  match verifyToken tok now with
  | .error e => (st, .error e)
  | .ok claims =>
    match st.posts.find? (fun p => p.id == postId) with
    | none => (st, .error .notFound)
    | some post =>
      if post.authorId ≠ claims.userId then (st, .error .forbidden)
      else
        ({ st with posts := st.posts.eraseP (fun p => p.id == postId) },
          .ok post)

/-- A ledger transaction record (src/account.js lines 17-22), with the
timestamp as an explicit clock value and amounts as exact rationals. -/
structure Tx where
  type : String
  amount : Rat
  timestamp : Nat
  balance : Rat
deriving DecidableEq

/-- The `Account` class of src/account.js lines 1-6. -/
structure Account where
  accountNumber : Nat
  balance : Rat
  transactions : List Tx
deriving DecidableEq

/-- `Account.deposit` of src/account.js lines 12-24.  A thrown error is
an `Except.error` carrying the message; since the throw precedes any
mutation, the error case leaves the account value untouched. -/
def Account.deposit (a : Account) (amount : Rat) (now : Nat) :
    Except String Account :=
  if amount ≤ 0 then .error "Deposit amount must be positive"
  else
    let newBalance := a.balance + amount
    .ok { a with
          balance := newBalance
          transactions := a.transactions ++ [⟨"deposit", amount, now, newBalance⟩] }

/-- `Account.withdraw` of src/account.js lines 26-41. -/
def Account.withdraw (a : Account) (amount : Rat) (now : Nat) :
    Except String Account :=
  if amount ≤ 0 then .error "Withdrawal amount must be positive"
  else if amount > a.balance then .error "Insufficient funds"
  else
    let newBalance := a.balance - amount
    .ok { a with
          balance := newBalance
          transactions := a.transactions ++ [⟨"withdrawal", amount, now, newBalance⟩] }

/-! Helper lemmas about the protocol functions. -/

theorem generateToken_some_claims (u : User) (P : Payload) (now : Nat) :
    (generateToken u (some P) now).claims =
      { userId := u.id
        username := u.username
        email := u.email
        iat := now
        exp := now + ttl
        contentSignature :=
          some ⟨canonicalize P, signInner (canonicalize P) Key.contentSecret⟩
        signedContent := some (canonicalize P) } := rfl

theorem generateToken_none_claims (u : User) (now : Nat) :
    (generateToken u none now).claims =
      { userId := u.id
        username := u.username
        email := u.email
        iat := now
        exp := now + ttl
        contentSignature := none
        signedContent := none } := rfl

theorem generateToken_claims_exp (u : User) (c : Option Payload) (now : Nat) :
    (generateToken u c now).claims.exp = now + ttl := by
  cases c <;> rfl

theorem generateToken_claims_iat (u : User) (c : Option Payload) (now : Nat) :
    (generateToken u c now).claims.iat = now := by
  cases c <;> rfl

theorem generateToken_sig (u : User) (c : Option Payload) (now : Nat) :
    (generateToken u c now).sig =
      signOuter (generateToken u c now).claims Key.authSecret := rfl

theorem verifyToken_some (tk : OuterToken) (now : Nat) :
    verifyToken (some tk) now =
      if tk.sig = signOuter tk.claims Key.authSecret then
        if now ≥ tk.claims.exp then .error .expiredToken else .ok tk.claims
      else .error .signatureError := rfl

/-- Bearer verification of an honestly issued token reduces to the
expiry check: the outer signature always matches the claims. -/
theorem verifyToken_generated (u : User) (c : Option Payload) (now t : Nat) :
    verifyToken (some (generateToken u c now)) t =
      if t ≥ now + ttl then .error .expiredToken
      else .ok (generateToken u c now).claims := by
  rw [verifyToken_some, if_pos (generateToken_sig u c now)]
  simp only [generateToken_claims_exp]

theorem verifyContentSignature_some (env : ContentEnvelope) (sc : Bytes)
    (userId : Nat) (username email : String) (iat xp : Nat) (body : Payload) :
    verifyContentSignature
      { userId := userId, username := username, email := email,
        iat := iat, exp := xp,
        contentSignature := some env, signedContent := some sc } body =
      (if env.sig = signInner env.content Key.contentSecret then
        match decodeCanonical env.content with
        | none => .error .invalidSignature
        | some signedContent =>
          if canonicalize body = canonicalize signedContent then .ok ()
          else .error (.payloadMismatch body signedContent)
      else .error .invalidSignature) := rfl

/-- Content verification of an honestly issued bound token reduces to
the canonical byte comparison against the signed payload. -/
theorem verifyContentSignature_bound (u : User) (P : Payload) (now : Nat)
    (hP : Wf P) (body : Payload) :
    verifyContentSignature (generateToken u (some P) now).claims body =
      if canonicalize body = canonicalize P then .ok ()
      else .error (.payloadMismatch body P) := by
  rw [generateToken_some_claims, verifyContentSignature_some,
    if_pos rfl, decode_canonicalize P hP]

/-- An accepted bearer token is accepted again at any time before its
expiry, with the same claims. -/
theorem verifyToken_ok_later (tok : Option OuterToken) (t t' : Nat)
    (c : AuthPayload) (h : verifyToken tok t = .ok c) (h' : t' < c.exp) :
    verifyToken tok t' = .ok c := by
  cases tok with
  | none => exact Except.noConfusion h
  | some tk =>
    rw [verifyToken_some] at h ⊢
    by_cases hs : tk.sig = signOuter tk.claims Key.authSecret
    · rw [if_pos hs] at h ⊢
      by_cases he : t ≥ tk.claims.exp
      · rw [if_pos he] at h; exact Except.noConfusion h
      · rw [if_neg he] at h
        injection h with h
        subst h
        rw [if_neg (by omega : ¬ t' ≥ tk.claims.exp)]
    · rw [if_neg hs] at h; exact Except.noConfusion h

/-! Demo values used by the concrete witnesses: the seeded admin user
and the post bodies of the spec's §8 scenario. -/

def demoUser : User := ⟨1, "admin", "admin@example.com", "hash"⟩

def demoPayload : Payload := ⟨[("title", "A"), ("content", "B")]⟩

def demoPayloadAltered : Payload := ⟨[("title", "A"), ("content", "C")]⟩

def demoPayloadSwapped : Payload := ⟨[("content", "B"), ("title", "A")]⟩

def demoPost : Post := ⟨1, "Welcome Post", "Welcome to our API!", 1⟩

def demoState : ServerState := ⟨[demoPost], 2⟩

/-! The claims. -/

/-- C1: for every principal and every non-empty payload P, issuing a
bound token for P (sign-content) and then running content-integrity
verification with request payload P succeeds, while running it with any
payload P' that differs from P fails with the payload-mismatch error
whose detail carries both the submitted payload (P') and the originally
signed payload (P).  Payloads range over the quote-free canonical
fragment (`Wf`). -/
theorem c1_sign_then_verify_payload_integrity
    (u : User) (P Pd : Payload) (now : Nat)
    (hP : Wf P) (hPd : Wf Pd) (hne : P.fields ≠ []) (hdiff : Pd ≠ P) :
    verifyContentSignature (generateToken u (some P) now).claims P = .ok () ∧
    verifyContentSignature (generateToken u (some P) now).claims Pd =
      .error (.payloadMismatch Pd P) := by
  refine ⟨?_, ?_⟩
  · rw [verifyContentSignature_bound u P now hP P, if_pos rfl]
  · rw [verifyContentSignature_bound u P now hP Pd,
      if_neg (fun hc => hdiff (canonicalize_inj hPd hP hc))]

theorem c1_witness :
    verifyContentSignature
        (generateToken demoUser (some demoPayload) 0).claims demoPayload =
      .ok () ∧
    verifyContentSignature
        (generateToken demoUser (some demoPayload) 0).claims demoPayloadAltered =
      .error (.payloadMismatch demoPayloadAltered demoPayload) :=
  c1_sign_then_verify_payload_integrity demoUser demoPayload demoPayloadAltered 0
    (by decide) (by decide) (by decide) (by decide)

/-- C2: a request to a mutating endpoint whose bearer token carries
plain claims (no content envelope) fails content-integrity verification
with the missing-signature error — not with any inner-signature or
payload-comparison error — and the handler is never reached (the store
is returned unchanged). -/
theorem c2_plain_token_missing_signature
    (u : User) (body : Payload) (now t : Nat) (st : ServerState)
    (h : t < now + ttl) :
    verifyContentSignature (generateToken u none now).claims body =
      .error .missingSignature ∧
    mutatingGate (some (generateToken u none now)) body t =
      .error .missingSignature ∧
    createPost st (some (generateToken u none now)) body t =
      (st, .error .missingSignature) := by
  have h1 : verifyContentSignature (generateToken u none now).claims body =
      .error .missingSignature := by
    rw [generateToken_none_claims]; rfl
  have h2 : mutatingGate (some (generateToken u none now)) body t =
      .error .missingSignature := by
    unfold mutatingGate
    rw [verifyToken_generated, if_neg (by omega : ¬ t ≥ now + ttl)]
    simp only []
    rw [h1]
  refine ⟨h1, h2, ?_⟩
  unfold createPost
  rw [h2]

theorem c2_witness :
    verifyContentSignature (generateToken demoUser none 0).claims demoPayload =
      .error .missingSignature ∧
    mutatingGate (some (generateToken demoUser none 0)) demoPayload 5 =
      .error .missingSignature ∧
    createPost demoState (some (generateToken demoUser none 0)) demoPayload 5 =
      (demoState, .error .missingSignature) :=
  c2_plain_token_missing_signature demoUser demoPayload 0 5 demoState (by decide)

/-- C3: a bound token altered in either transmitted component — its
outer signature replaced by any different signature, or its claims
replaced by any different claims while the original signature is kept —
fails the bearer stage with the signature error, at every time and for
every request body, so the content-integrity stage is never reached and
the failure is never a payload mismatch. -/
theorem c3_altered_token_signature_error
    (u : User) (P : Payload) (now t : Nat) (body : Payload) :
    (∀ sg : OuterSig, sg ≠ (generateToken u (some P) now).sig →
      mutatingGate (some ⟨(generateToken u (some P) now).claims, sg⟩) body t =
        .error .signatureError) ∧
    (∀ cl : AuthPayload, cl ≠ (generateToken u (some P) now).claims →
      mutatingGate (some ⟨cl, (generateToken u (some P) now).sig⟩) body t =
        .error .signatureError) := by
  constructor
  · intro sg hsg
    have hv : verifyToken
        (some ⟨(generateToken u (some P) now).claims, sg⟩) t =
        .error .signatureError := by
      rw [verifyToken_some]
      exact if_neg
        (fun hc => hsg (hc.trans (generateToken_sig u (some P) now).symm))
    unfold mutatingGate
    rw [hv]
  · intro cl hcl
    have hv : verifyToken
        (some ⟨cl, (generateToken u (some P) now).sig⟩) t =
        .error .signatureError := by
      rw [verifyToken_some]
      refine if_neg (fun hc => hcl ?_)
      have hc2 : signOuter (generateToken u (some P) now).claims Key.authSecret =
          signOuter cl Key.authSecret := hc
      exact (congrArg OuterSig.signedClaims hc2).symm
    unfold mutatingGate
    rw [hv]

theorem c3_witness :
    mutatingGate
      (some ⟨(generateToken demoUser (some demoPayload) 0).claims,
        signOuter (generateToken demoUser (some demoPayload) 0).claims
          Key.contentSecret⟩)
      demoPayload 5 = .error .signatureError :=
  (c3_altered_token_signature_error demoUser demoPayload 0 5 demoPayload).1
    (signOuter (generateToken demoUser (some demoPayload) 0).claims
      Key.contentSecret)
    (by decide)

/-- C4: signing is deterministic — two invocations of the signing
operation (inner envelope signing over bytes, or outer token signing
over claims) on identical input and identical key produce identical
signatures. -/
theorem c4_sign_deterministic
    (b1 b2 : Bytes) (p1 p2 : AuthPayload) (ki1 ki2 ko1 ko2 : Key)
    (hb : b1 = b2) (hp : p1 = p2) (hki : ki1 = ki2) (hko : ko1 = ko2) :
    signInner b1 ki1 = signInner b2 ki2 ∧
    signOuter p1 ko1 = signOuter p2 ko2 := by
  subst hb; subst hp; subst hki; subst hko
  exact ⟨rfl, rfl⟩

theorem c4_witness :
    signInner (canonicalize demoPayload) Key.contentSecret =
      signInner (canonicalize demoPayload) Key.contentSecret ∧
    signOuter (generateToken demoUser none 0).claims Key.authSecret =
      signOuter (generateToken demoUser none 0).claims Key.authSecret :=
  c4_sign_deterministic (canonicalize demoPayload) (canonicalize demoPayload)
    (generateToken demoUser none 0).claims (generateToken demoUser none 0).claims
    Key.contentSecret Key.contentSecret Key.authSecret Key.authSecret
    rfl rfl rfl rfl

/-- C5 counterexample: the claim says expiry is reported regardless of
signature validity, but bearer verification checks the outer signature
first (spec §4.4 order (c) before (d), matching the verification
library): a token whose expiry lies in the past and whose outer
signature is invalid fails with the signature error, not the expiry
error. -/
theorem c5_counterexample :
    100000 ≥
      (OuterToken.mk (generateToken demoUser none 0).claims
        (signOuter (generateToken demoUser none 0).claims
          Key.contentSecret)).claims.exp ∧
    verifyToken
        (some (OuterToken.mk (generateToken demoUser none 0).claims
          (signOuter (generateToken demoUser none 0).claims
            Key.contentSecret))) 100000 ≠
      .error .expiredToken ∧
    verifyToken
        (some (OuterToken.mk (generateToken demoUser none 0).claims
          (signOuter (generateToken demoUser none 0).claims
            Key.contentSecret))) 100000 =
      .error .signatureError := by
  refine ⟨by decide, by decide, by decide⟩

/-- C5 (amended): for every token whose expiry lies in the past, bearer
verification fails with the expiry error when the outer signature is
valid; when the outer signature is invalid, the signature check comes
first and the failure is the signature error instead. -/
theorem c5_expired_token_rejection
    (tok : OuterToken) (now : Nat) (hexp : now ≥ tok.claims.exp) :
    (tok.sig = signOuter tok.claims Key.authSecret →
      verifyToken (some tok) now = .error .expiredToken) ∧
    (tok.sig ≠ signOuter tok.claims Key.authSecret →
      verifyToken (some tok) now = .error .signatureError) := by
  constructor <;> intro h
  · rw [verifyToken_some, if_pos h, if_pos hexp]
  · rw [verifyToken_some, if_neg h]

theorem c5_witness :
    verifyToken (some (generateToken demoUser none 0)) 100000 =
      .error .expiredToken :=
  (c5_expired_token_rejection (generateToken demoUser none 0) 100000
    (by decide)).1 rfl

/-- C6: verification consumes nothing — the gate is a pure function of
the token, the body and the clock, so a token that passes the full
verification chain for payload P at one time passes it again, with the
same claims, at every time before the claims' expiry. -/
theorem c6_bound_token_reusable
    (tok : Option OuterToken) (body : Payload) (t td : Nat)
    (claims : AuthPayload)
    (h : mutatingGate tok body t = .ok claims) (hd : td < claims.exp) :
    mutatingGate tok body td = .ok claims := by
  unfold mutatingGate at h ⊢
  cases hv : verifyToken tok t with
  | error e => rw [hv] at h; exact Except.noConfusion h
  | ok c =>
    rw [hv] at h
    simp only [] at h
    cases hc : verifyContentSignature c body with
    | error e => rw [hc] at h; exact Except.noConfusion h
    | ok uu =>
      rw [hc] at h
      injection h with h
      subst h
      rw [verifyToken_ok_later tok t td c hv hd]
      simp only []
      rw [hc]

theorem c6_witness :
    mutatingGate (some (generateToken demoUser (some demoPayload) 0))
      demoPayload 6 =
      .ok (generateToken demoUser (some demoPayload) 0).claims :=
  c6_bound_token_reusable
    (some (generateToken demoUser (some demoPayload) 0)) demoPayload 5 6
    (generateToken demoUser (some demoPayload) 0).claims
    (by decide) (by decide)

/-- C7: canonicalization does not normalize field order — two payloads
carrying the same field/value pairs (as a permutation) but in different
serialization order canonicalize to different byte strings, and a token
bound to one fails content-integrity verification against the other with
the payload-mismatch error. -/
theorem c7_field_order_not_normalized
    (u : User) (now : Nat) (P Q : Payload) (hP : Wf P) (hQ : Wf Q)
    (hperm : P.fields.Perm Q.fields) (hne : P.fields ≠ Q.fields) :
    canonicalize P ≠ canonicalize Q ∧
    verifyContentSignature (generateToken u (some P) now).claims Q =
      .error (.payloadMismatch Q P) := by
  have hPQ : P ≠ Q := fun h => hne (congrArg Payload.fields h)
  refine ⟨fun h => hPQ (canonicalize_inj hP hQ h), ?_⟩
  rw [verifyContentSignature_bound u P now hP Q,
    if_neg (fun hc => hPQ (canonicalize_inj hQ hP hc).symm)]

theorem c7_witness :
    canonicalize demoPayload ≠ canonicalize demoPayloadSwapped ∧
    verifyContentSignature
        (generateToken demoUser (some demoPayload) 0).claims demoPayloadSwapped =
      .error (.payloadMismatch demoPayloadSwapped demoPayload) :=
  c7_field_order_not_normalized demoUser 0 demoPayload demoPayloadSwapped
    (by decide) (by decide) (by decide) (by decide)

/-- C8: every issued token, plain or bound, satisfies
expiresAt = issuedAt + 24 hours, and bearer verification never accepts
claims whose expiry has passed: acceptance implies the current time is
strictly below the expiry. -/
theorem c8_ttl_and_expiry
    (u : User) (c : Option Payload) (now t : Nat)
    (tok : Option OuterToken) (claims : AuthPayload) :
    (generateToken u c now).claims.exp =
      (generateToken u c now).claims.iat + ttl ∧
    ttl = 24 * 60 * 60 ∧
    (verifyToken tok t = .ok claims → t < claims.exp) := by
  refine ⟨by rw [generateToken_claims_exp, generateToken_claims_iat], rfl, ?_⟩
  intro h
  cases tok with
  | none => exact Except.noConfusion h
  | some tk =>
    rw [verifyToken_some] at h
    by_cases hs : tk.sig = signOuter tk.claims Key.authSecret
    · rw [if_pos hs] at h
      by_cases he : t ≥ tk.claims.exp
      · rw [if_pos he] at h; exact Except.noConfusion h
      · rw [if_neg he] at h
        injection h with h
        subst h
        omega
    · rw [if_neg hs] at h; exact Except.noConfusion h

theorem c8_witness :
    (generateToken demoUser (some demoPayload) 7).claims.exp =
      (generateToken demoUser (some demoPayload) 7).claims.iat + ttl ∧
    ttl = 24 * 60 * 60 ∧
    (verifyToken (some (generateToken demoUser (some demoPayload) 7)) 9 =
        .ok (generateToken demoUser (some demoPayload) 7).claims →
      9 < (generateToken demoUser (some demoPayload) 7).claims.exp) :=
  c8_ttl_and_expiry demoUser (some demoPayload) 7 9
    (some (generateToken demoUser (some demoPayload) 7))
    (generateToken demoUser (some demoPayload) 7).claims

/-- C9: for an account with non-negative balance, deposit and withdraw
preserve non-negativity; deposit requires a positive amount, and
withdraw fails with the insufficient-funds error whenever the requested
amount exceeds the current balance (the throw precedes any mutation, so
the account value is untouched in that case). -/
theorem c9_balance_nonneg
    (a : Account) (amount : Rat) (now : Nat) (h : 0 ≤ a.balance) :
    (∀ ad, a.deposit amount now = .ok ad → 0 ≤ ad.balance) ∧
    (∀ ad, a.withdraw amount now = .ok ad → 0 ≤ ad.balance) ∧
    (amount ≤ 0 →
      a.deposit amount now = .error "Deposit amount must be positive") ∧
    (amount > a.balance →
      a.withdraw amount now = .error "Insufficient funds") := by
  refine ⟨?_, ?_, ?_, ?_⟩
  · intro ad ha
    unfold Account.deposit at ha
    by_cases hle : amount ≤ 0
    · rw [if_pos hle] at ha; exact Except.noConfusion ha
    · rw [if_neg hle] at ha
      injection ha with ha
      subst ha
      show (0 : Rat) ≤ a.balance + amount
      push_neg at hle
      linarith
  · intro ad ha
    unfold Account.withdraw at ha
    by_cases hle : amount ≤ 0
    · rw [if_pos hle] at ha; exact Except.noConfusion ha
    · rw [if_neg hle] at ha
      by_cases hgt : amount > a.balance
      · rw [if_pos hgt] at ha; exact Except.noConfusion ha
      · rw [if_neg hgt] at ha
        injection ha with ha
        subst ha
        show (0 : Rat) ≤ a.balance - amount
        push_neg at hgt
        linarith
  · intro hle
    unfold Account.deposit
    rw [if_pos hle]
  · intro hgt
    unfold Account.withdraw
    rw [if_neg (by linarith : ¬ amount ≤ 0), if_pos hgt]

theorem c9_witness :
    Account.withdraw ⟨1, 5, []⟩ 7 0 = .error "Insufficient funds" :=
  (c9_balance_nonneg ⟨1, 5, []⟩ 7 0 (by norm_num)).2.2.2 (by norm_num)

/-- C10 (implicit): the DELETE endpoint is not gated by
content-integrity verification — a plain token, whose claims carry
neither envelope nor signed content, suffices to delete an existing post
owned by the caller, and the deletion is accepted. -/
theorem c10_delete_needs_no_envelope
    (u : User) (st : ServerState) (post : Post) (postId now t : Nat)
    (hfind : st.posts.find? (fun p => p.id == postId) = some post)
    (hown : post.authorId = u.id)
    (ht : t < now + ttl) :
    (generateToken u none now).claims.contentSignature = none ∧
    (generateToken u none now).claims.signedContent = none ∧
    deletePost st (some (generateToken u none now)) postId t =
      ({ st with posts := st.posts.eraseP (fun p => p.id == postId) },
        .ok post) := by
  refine ⟨rfl, rfl, ?_⟩
  unfold deletePost
  rw [verifyToken_generated, if_neg (by omega : ¬ t ≥ now + ttl)]
  simp only []
  rw [hfind]
  simp only []
  rw [if_neg (fun hne => hne hown)]

theorem c10_witness :
    deletePost demoState (some (generateToken demoUser none 0)) 1 5 =
      ({ demoState with posts := demoState.posts.eraseP (fun p => p.id == 1) },
        .ok demoPost) :=
  (c10_delete_needs_no_envelope demoUser demoState demoPost 1 0 5
    (by decide) (by decide) (by decide)).2.2

end SecureApi
